import Mathlib

/-!
Verification of the feed-ingestion and background-synchronization core of the
dry-dock application (src/services/rss_service.rs, src/dal/db_context.rs,
src/dal/repositories/feeds_repository.rs, src/app/app_state.rs,
src/ui/screens/feeds_screen.rs).

The embedding models the SQLite tables as in-memory lists of rows, the external
effects (HTTP, XML decoding of the rss / atom_syndication crates, RFC-2822 date
parsing, connection acquisition) as an explicit environment of oracles, and the
service functions as pure state-passing functions translated clause by clause
from the Rust source.
-/

namespace DryDock

/-! ## Data model (schema from src/dal/db_context.rs, run_migrations) -/

/-- A row of the `feeds` table:
`id, title, url (UNIQUE), last_updated (nullable), created_at`. -/
structure FeedRow where
  id : Int
  title : String
  url : String
  last_updated : Option Int
  created_at : Int
deriving DecidableEq

/-- A row of the `feed_items` table:
`feed_id, title, link, description, pub_date, guid (TEXT UNIQUE), created_at`.
The surrogate `id` column plays no role in the modelled operations. -/
structure FeedItemRow where
  feed_id : Int
  title : String
  link : String
  description : String
  pub_date : Int
  guid : String
  created_at : Int
deriving DecidableEq

/-- The `feed_items` table contents. -/
abbrev ItemStore := List FeedItemRow

/-- The database state visible to the modelled operations. -/
structure DbState where
  feeds : List FeedRow
  items : ItemStore
deriving DecidableEq

/-- Whether some stored row already carries dedup key `g` (the `guid TEXT UNIQUE`
constraint consulted by `INSERT OR IGNORE`). -/
def hasGuid (store : ItemStore) (g : String) : Bool :=
  store.any (fun r => r.guid == g)

/-- Number of stored rows whose guid is `g`. -/
def countGuid (store : ItemStore) (g : String) : Nat :=
  (store.filter (fun r => r.guid == g)).length

/-- `INSERT OR IGNORE INTO feed_items ...` keyed on the unique `guid` column
(`FeedItemsRepository::insert_or_ignore`, and the identical inline statement in
`store_feed_items`): inserts the row and reports `true` iff no row with that
guid existed. -/
def insert_or_ignore (store : ItemStore) (row : FeedItemRow) : ItemStore × Bool :=
  if hasGuid store row.guid then (store, false) else (store ++ [row], true)

/-! ## Parsed feed entries (src/services/rss_service.rs) -/

/-- The normalized entry struct `FeedItem` of rss_service.rs (lines 62-68). -/
structure FeedItem where
  title : String
  link : String
  description : String
  pub_date : Int
  guid : String
deriving DecidableEq

/-- An item of a decoded RSS channel, with exactly the accessors the source
uses: `title()`, `link()`, `description()`, `pub_date()` and `guid()` are all
optional in the rss crate. -/
structure RssItem where
  title : Option String
  link : Option String
  description : Option String
  pub_date : Option String
  guid : Option String
deriving DecidableEq

/-- An entry of a decoded Atom feed, with the accessors the source uses.
In the atom_syndication crate `title()`, `updated()` and `id()` are mandatory,
while `links()` may be empty and `summary()` / `content().value()` are
optional; dates are modelled by their resulting timestamps. -/
structure AtomEntry where
  title : String
  links : List String
  summary : Option String
  content : Option String
  published : Option Int
  updated : Int
  id : String
deriving DecidableEq

/-- The possible outcomes of the HTTP fetch in `fetch_and_store_feed`
(client construction, `send()`, status check, `text()`), in source order. -/
inductive HttpOutcome where
  | clientBuildErr (e : String)
  | sendErr (e : String)
  | statusFail (status : String)
  | readErr (e : String)
  | ok (content : String)
deriving DecidableEq

/-- The environment of external effects of one ingestion run: the HTTP fetch
keyed by the (normalized) URL, the XML decoders of the rss and
atom_syndication crates, RFC-2822 date parsing, the current time, and the
outcomes of the `get_connection()` / `UPDATE feeds` steps. -/
structure RssEnv where
  http : String → HttpOutcome
  readChannel : String → Except String (List RssItem)
  readAtomFeed : String → Except String (List AtomEntry)
  rfc2822 : String → Option Int
  now : Int
  storeConn : Except String Unit
  updateStep : Except String Unit
  feedsQuery : Except String Unit

/-- Normalization of one RSS item (rss_service.rs lines 76-105): title defaults
to "Untitled", link and description to "", `pub_date` to the current time when
absent or not RFC-2822 parseable, and `guid` to the (already defaulted) link
when the item has no guid. -/
def normalizeRssItem (env : RssEnv) (item : RssItem) : FeedItem :=
  let title := item.title.getD "Untitled"
  let link := item.link.getD ""
  let description := item.description.getD ""
  let pub_date := (item.pub_date.bind env.rfc2822).getD env.now
  let guid := item.guid.getD link
  ⟨title, link, description, pub_date, guid⟩

/-- Normalization of one Atom entry (rss_service.rs lines 117-144): link is the
first link href or "", description is the summary or else the content value or
"", `pub_date` is `published` or else the mandatory `updated`, and the dedup
key is the mandatory entry id. -/
def normalizeAtomEntry (env : RssEnv) (entry : AtomEntry) : FeedItem :=
  let title := entry.title
  let link := entry.links.head?.getD ""
  let description := (entry.summary.or entry.content).getD ""
  let pub_date := (entry.published.or (some entry.updated)).getD env.now
  let guid := entry.id
  ⟨title, link, description, pub_date, guid⟩

/-- `parse_rss` (rss_service.rs lines 70-109): decode with
`rss::Channel::read_from`, then normalize every item. -/
def parse_rss (env : RssEnv) (content : String) : Except String (List FeedItem) :=
  (env.readChannel content).map (List.map (normalizeRssItem env))

/-- `parse_atom` (rss_service.rs lines 111-148): decode with
`atom_syndication::Feed::read_from`, then normalize every entry. -/
def parse_atom (env : RssEnv) (content : String) : Except String (List FeedItem) :=
  (env.readAtomFeed content).map (List.map (normalizeAtomEntry env))

/-- Row built for the insert in `store_feed_items` (all items of one run share
one `created_at` timestamp `now`). -/
def mkItemRow (feed_id now : Int) (item : FeedItem) : FeedItemRow :=
  ⟨feed_id, item.title, item.link, item.description, item.pub_date, item.guid, now⟩

/-- The for-loop of `store_feed_items` (rss_service.rs lines 155-166): run the
dedup insert for each item in order, counting the items actually inserted. -/
def storeFold (feed_id now : Int) : List FeedItem → ItemStore × Nat → ItemStore × Nat
  | [], acc => acc
  | item :: rest, (store, n) =>
    let p := insert_or_ignore store (mkItemRow feed_id now item)
    storeFold feed_id now rest (p.1, if p.2 then n + 1 else n)

/-- `store_feed_items` (rss_service.rs lines 150-169): acquire a pooled
connection (the only failure point), then dedup-insert every item, returning
the count of newly created rows. -/
def store_feed_items (env : RssEnv) (feed_id : Int) (items : List FeedItem)
    (store : ItemStore) : Except String (ItemStore × Nat) :=
  match env.storeConn with
  | .error e => .error e
  | .ok _ => .ok (storeFold feed_id env.now items (store, 0))

/-- Rust `str::trim`: drop leading and trailing whitespace (an executable
embedding, since the corresponding library function is not kernel-reducible). -/
def rustTrim (s : String) : String :=
  ⟨((s.data.dropWhile Char.isWhitespace).reverse.dropWhile Char.isWhitespace).reverse⟩

/-- Rust `str::starts_with` on a string pattern. -/
def rustStartsWith (s p : String) : Bool :=
  p.data.isPrefixOf s.data

/-- URL normalization at the head of `fetch_and_store_feed` (rss_service.rs
lines 7-17): trim, reject the empty URL, and prepend `https://` unless the URL
already starts with `http://` or `https://`. -/
def normalizeFeedUrl (feed_url : String) : Except String String :=
  let url := rustTrim feed_url
  if url = "" then .error "Feed URL is empty"
  else if rustStartsWith url "http://" || rustStartsWith url "https://" then .ok url
  else .ok ("https://" ++ url)

/-- `UPDATE feeds SET last_updated = now WHERE id = feed_id` (rss_service.rs
lines 53-57, the statement of `FeedsRepository::update_last_updated`). -/
def setLastUpdated (feeds : List FeedRow) (feed_id now : Int) : List FeedRow :=
  feeds.map (fun f => if f.id = feed_id then { f with last_updated := some now } else f)

/-- The tail of `fetch_and_store_feed` shared by both parse branches: store the
parsed items (propagating a store failure), then run the feed-timestamp
update; a failing update returns an error while the freshly inserted item rows
remain in the store. -/
def afterParse (env : RssEnv) (feed_id : Int) (items : List FeedItem)
    (st : DbState) : Except String Nat × DbState :=
  match store_feed_items env feed_id items st.items with
  | .error e => (.error e, st)
  | .ok p =>
    let st2 : DbState := { st with items := p.1 }
    match env.updateStep with
    | .error e => (.error e, st2)
    | .ok _ => (.ok p.2, { st2 with feeds := setLastUpdated st2.feeds feed_id env.now })

/-- The parse-dialect dispatch of `fetch_and_store_feed` (rss_service.rs lines
41-48): try RSS first, Atom only if RSS fails, and fail with the parse error
when neither dialect decodes. -/
def parseAndStore (env : RssEnv) (feed_id : Int) (content : String)
    (st : DbState) : Except String Nat × DbState :=
  match parse_rss env content with
  | .ok items => afterParse env feed_id items st
  | .error _ =>
    match parse_atom env content with
    | .ok items => afterParse env feed_id items st
    | .error _ => (.error "Failed to parse feed as RSS or Atom", st)

/-- The body of `fetch_and_store_feed` after URL normalization (rss_service.rs
lines 22-59): fetch, then parse and store. -/
def fetchBody (env : RssEnv) (feed_id : Int) (url : String) (st : DbState) :
    Except String Nat × DbState :=
  match env.http url with
  | .clientBuildErr e => (.error ("Failed to create HTTP client: " ++ e), st)
  | .sendErr e => (.error ("Failed to fetch feed from " ++ url ++ ": " ++ e), st)
  | .statusFail s => (.error ("HTTP error: " ++ s ++ " for URL: " ++ url), st)
  | .readErr e => (.error ("Failed to read feed content: " ++ e), st)
  | .ok content => parseAndStore env feed_id content st

/-- `fetch_and_store_feed` (rss_service.rs lines 5-60). -/
def fetch_and_store_feed (env : RssEnv) (feed_id : Int) (feed_url : String)
    (st : DbState) : Except String Nat × DbState :=
  match normalizeFeedUrl feed_url with
  | .error e => (.error e, st)
  | .ok url => fetchBody env feed_id url st

/-- The per-feed loop of `refresh_all_feeds` (rss_service.rs lines 189-201):
sync every feed in order, accumulating the total of added items and the list
of per-feed error messages. -/
def refreshLoop (env : RssEnv) : List FeedRow → Nat → List String → DbState →
    Nat × List String × DbState
  | [], total, errors, st => (total, errors, st)
  | f :: rest, total, errors, st =>
    match (fetch_and_store_feed env f.id f.url st).1 with
    | .ok n =>
      refreshLoop env rest (total + n) errors (fetch_and_store_feed env f.id f.url st).2
    | .error e =>
      refreshLoop env rest total (errors ++ [f.title ++ ": " ++ e])
        (fetch_and_store_feed env f.id f.url st).2

/-- `refresh_all_feeds` (rss_service.rs lines 171-213): query the feed list
(the only failure point), sync every feed, and return a summary message. -/
def refresh_all_feeds (env : RssEnv) (st : DbState) : Except String String × DbState :=
  match env.feedsQuery with
  | .error e => (.error e, st)
  | .ok _ =>
    let p := refreshLoop env st.feeds 0 [] st
    if p.2.1.isEmpty then
      (.ok ("Successfully refreshed feeds. Added " ++ toString p.1 ++ " new items."), p.2.2)
    else
      (.ok ("Refreshed feeds with " ++ toString p.2.1.length ++ " errors. Added " ++
        toString p.1 ++ " items.\nErrors:\n" ++ String.intercalate "\n" p.2.1), p.2.2)

/-! ## Background scheduler (src/app/app_state.rs) and the Feeds screen cache -/

/-- The screen identifiers of `ActiveScreen` (src/app/active_screen.rs). -/
inductive ActiveScreen where
  | noScreen
  | feeds
  | notes
  | assistant
  | terminal
  | bookmarks
deriving DecidableEq

/-- The cache-relevant state of `FeedsScreen` (src/ui/screens/feeds_screen.rs):
`loaded = false` means the item list is stale and is reloaded from the
repository on the next render. -/
structure FeedsScreenState where
  loaded : Bool
deriving DecidableEq

/-- `FeedsScreen::clear_for_reload` (feeds_screen.rs lines 25-27). -/
def clear_for_reload (s : FeedsScreenState) : FeedsScreenState :=
  { s with loaded := false }

/-- The shared `ScreenFactory` state as far as the scheduler touches it. -/
structure ScreenFactoryState where
  feedsScreen : FeedsScreenState
deriving DecidableEq

/-- Modelled from the spec: `ScreenFactory::clear_screen` is called by the
scheduler (app_state.rs line 93) and by the feed-management modal, but its
definition is absent from the provided sources; per the spec it marks the
named view's cache stale so the view reloads before its next render, which
for the Feeds screen is exactly `clear_for_reload`. -/
def clear_screen (factory : ScreenFactoryState) (screen : ActiveScreen) :
    ScreenFactoryState :=
  match screen with
  | .feeds => { factory with feedsScreen := clear_for_reload factory.feedsScreen }
  | _ => factory

/-- A row of the `logs` table as written by `log_service::add_log_entry`. -/
structure LogEntry where
  level : String
  message : String
deriving DecidableEq

/-- `log_service::add_log_entry` appends one entry to the log. -/
def add_log_entry (log : List LogEntry) (level message : String) : List LogEntry :=
  log ++ [⟨level, message⟩]

/-- Result of one iteration of the `start_rss_reloader` loop body: either the
loop continues with updated database, screen-factory and log state, or the
scheduler thread panicked. -/
inductive CycleResult where
  | next (db : DbState) (factory : ScreenFactoryState) (log : List LogEntry)
  | panicked
deriving DecidableEq

/-- The fixed wake interval of the RSS reloader
(`std::thread::sleep(Duration::from_secs(300))`, app_state.rs line 81). -/
def rssReloaderIntervalSecs : Nat := 300

/-- One iteration of the loop body of
`BackgroundServiceManager::start_rss_reloader` (app_state.rs lines 79-101),
run after sleeping `rssReloaderIntervalSecs`: `tokio::runtime::Runtime::new()
.unwrap()` panics the scheduler thread if runtime creation fails
(`runtimeOk = false`); otherwise `refresh_all_feeds` runs, an `Ok` outcome is
logged and the Feeds screen is cleared for reload under the factory lock,
while an `Err` outcome is only logged. -/
def rssReloaderCycle (env : RssEnv) (runtimeOk : Bool) (db : DbState)
    (factory : ScreenFactoryState) (log : List LogEntry) : CycleResult :=
  if runtimeOk then
    match refresh_all_feeds env db with
    | (.ok items_added, db2) =>
      let log2 := add_log_entry log "INFO"
        ("RSS Feeds refreshed, " ++ items_added ++ " new items added.")
      let factory2 := clear_screen factory ActiveScreen.feeds
      let log3 := add_log_entry log2 "INFO" "Feeds screen cleared, will reload on next render"
      .next db2 factory2 log3
    | (.error e, db2) =>
      .next db2 factory (add_log_entry log "ERROR" ("Error refreshing RSS feeds: " ++ e))
  else .panicked

/-- The state carried across iterations of the scheduler loop. -/
structure SchedState where
  db : DbState
  factory : ScreenFactoryState
  log : List LogEntry
deriving DecidableEq

/-- The scheduler loop as a transition system: `sleeping s` is about to sleep
`rssReloaderIntervalSecs` and then run the next cycle; `dead` is a panicked
scheduler thread (the loop itself has no other exit short of process exit). -/
inductive LoopState where
  | sleeping (s : SchedState)
  | dead
deriving DecidableEq

/-- One transition of the scheduler loop. -/
def loopStep (env : RssEnv) (runtimeOk : Bool) : LoopState → LoopState
  | .sleeping s =>
    match rssReloaderCycle env runtimeOk s.db s.factory s.log with
    | .next db2 f2 log2 => .sleeping ⟨db2, f2, log2⟩
    | .panicked => .dead
  | .dead => .dead

/-! ## Auxiliary definitions used by the theorems -/

/-- Repeated ingestion of a sequence of entry batches through
`store_feed_items` (the store step of repeated `fetch_and_store_feed` runs);
a failing run leaves the store unchanged, as in the source. -/
def ingestBatches (env : RssEnv) (feed_id : Int) :
    List (List FeedItem) → ItemStore → ItemStore
  | [], store => store
  | b :: rest, store =>
    match store_feed_items env feed_id b store with
    | .ok p => ingestBatches env feed_id rest p.1
    | .error _ => ingestBatches env feed_id rest store

/-- The sequence of `inserted` reports of the dedup-insert primitive over a
list of items, with the store evolving between calls. -/
def insertReports (feed_id now : Int) : List FeedItem → ItemStore → List Bool
  | [], _ => []
  | item :: rest, store =>
    let p := insert_or_ignore store (mkItemRow feed_id now item)
    p.2 :: insertReports feed_id now rest p.1

/-- The per-feed sync outcomes of one `refresh_all_feeds` run, in feed order,
with the database state threaded from one sync to the next. -/
def feedOutcomes (env : RssEnv) : List FeedRow → DbState → List (Except String Nat)
  | [], _ => []
  | f :: rest, st =>
    (fetch_and_store_feed env f.id f.url st).1 ::
      feedOutcomes env rest (fetch_and_store_feed env f.id f.url st).2

/-- The per-feed error messages collected by one `refresh_all_feeds` run. -/
def feedErrMsgs (env : RssEnv) : List FeedRow → DbState → List String
  | [], _ => []
  | f :: rest, st =>
    match (fetch_and_store_feed env f.id f.url st).1 with
    | .ok _ => feedErrMsgs env rest (fetch_and_store_feed env f.id f.url st).2
    | .error e =>
      (f.title ++ ": " ++ e) :: feedErrMsgs env rest (fetch_and_store_feed env f.id f.url st).2

/-- Sum of the counts of the successful outcomes. -/
def sumOks : List (Except String Nat) → Nat
  | [] => 0
  | .ok n :: rest => n + sumOks rest
  | .error _ :: rest => sumOks rest

/-- The summary string of `refresh_all_feeds` (rss_service.rs lines 203-212)
as a function of the accumulated total and error list. -/
def summaryMessage (total : Nat) (errors : List String) : String :=
  if errors.isEmpty then
    "Successfully refreshed feeds. Added " ++ toString total ++ " new items."
  else
    "Refreshed feeds with " ++ toString errors.length ++ " errors. Added " ++
      toString total ++ " items.\nErrors:\n" ++ String.intercalate "\n" errors

/-- Whether an `Except` value is a success. -/
def isOkE {ε α : Type} : Except ε α → Bool
  | .ok _ => true
  | .error _ => false

/-- Projection of a completed cycle onto the screen-factory state (`none` for
a panicked cycle). -/
def cycleFactory : CycleResult → Option ScreenFactoryState
  | .next _ f _ => some f
  | .panicked => none

/-! ## Store lemmas -/

theorem hasGuid_eq_false_iff (store : ItemStore) (g : String) :
    hasGuid store g = false ↔ countGuid store g = 0 := by
  unfold hasGuid countGuid
  induction store with
  | nil => simp
  | cons r rest ih =>
    by_cases h : r.guid == g <;> simp [h, ih]

theorem countGuid_append (store : ItemStore) (row : FeedItemRow) (g : String) :
    countGuid (store ++ [row]) g =
      countGuid store g + (if row.guid == g then 1 else 0) := by
  unfold countGuid
  rw [List.filter_append]
  by_cases h : row.guid == g <;> simp [h]

theorem storeFold_all_present (feed_id now : Int) :
    ∀ (items : List FeedItem) (store : ItemStore) (n : Nat),
      (∀ it ∈ items, hasGuid store it.guid = true) →
      storeFold feed_id now items (store, n) = (store, n) := by
  intro items
  induction items with
  | nil => intro store n _; rfl
  | cons it rest ih =>
    intro store n h
    have hit : hasGuid store it.guid = true := h it (List.mem_cons_self it rest)
    have hins : insert_or_ignore store (mkItemRow feed_id now it) = (store, false) := by
      unfold insert_or_ignore
      simp [mkItemRow, hit]
    unfold storeFold
    rw [hins]
    simpa using ih store n (fun x hx => h x (List.mem_cons_of_mem it hx))

theorem storeFold_all_guid_present (feed_id now : Int) (g : String)
    (items : List FeedItem) (store : ItemStore) (n : Nat)
    (hall : ∀ it ∈ items, it.guid = g) (hpres : hasGuid store g = true) :
    storeFold feed_id now items (store, n) = (store, n) := by
  apply storeFold_all_present
  intro it hit
  rw [hall it hit]
  exact hpres

theorem hasGuid_append_self (store : ItemStore) (row : FeedItemRow) :
    hasGuid (store ++ [row]) row.guid = true := by
  unfold hasGuid
  simp

theorem storeFold_fresh_guid (feed_id now : Int) (g : String) (it : FeedItem)
    (rest : List FeedItem) (store : ItemStore) (n : Nat)
    (hall : ∀ x ∈ it :: rest, x.guid = g) (habs : hasGuid store g = false) :
    (storeFold feed_id now (it :: rest) (store, n)).1 =
      store ++ [mkItemRow feed_id now it] := by
  have hg : it.guid = g := hall it (List.mem_cons_self it rest)
  have hins : insert_or_ignore store (mkItemRow feed_id now it) =
      (store ++ [mkItemRow feed_id now it], true) := by
    unfold insert_or_ignore
    simp [mkItemRow, hg, habs]
  have hpres : hasGuid (store ++ [mkItemRow feed_id now it]) g = true := by
    have := hasGuid_append_self store (mkItemRow feed_id now it)
    simpa [mkItemRow, hg] using this
  unfold storeFold
  rw [hins]
  simp only
  rw [storeFold_all_guid_present feed_id now g rest _ _
    (fun x hx => hall x (List.mem_cons_of_mem it hx)) hpres]

theorem storeFold_count (feed_id now : Int) :
    ∀ (items : List FeedItem) (store : ItemStore) (n : Nat),
      (storeFold feed_id now items (store, n)).2 =
        n + (insertReports feed_id now items store).count true := by
  intro items
  induction items with
  | nil => intro store n; simp [storeFold, insertReports]
  | cons it rest ih =>
    intro store n
    by_cases h : hasGuid store (mkItemRow feed_id now it).guid
    · simp [storeFold, insertReports, insert_or_ignore, h, ih]
    · simp [storeFold, insertReports, insert_or_ignore, h, ih]
      omega

theorem storeFold_length (feed_id now : Int) :
    ∀ (items : List FeedItem) (store : ItemStore) (n : Nat),
      (storeFold feed_id now items (store, n)).1.length =
        store.length + (insertReports feed_id now items store).count true := by
  intro items
  induction items with
  | nil => intro store n; simp [storeFold, insertReports]
  | cons it rest ih =>
    intro store n
    by_cases h : hasGuid store (mkItemRow feed_id now it).guid
    · simp [storeFold, insertReports, insert_or_ignore, h, ih]
    · simp [storeFold, insertReports, insert_or_ignore, h, ih]
      omega

theorem store_feed_items_all_present (env : RssEnv) (feed_id : Int)
    (items : List FeedItem) (store : ItemStore)
    (hconn : env.storeConn = Except.ok ())
    (h : ∀ it ∈ items, hasGuid store it.guid = true) :
    store_feed_items env feed_id items store = Except.ok (store, 0) := by
  unfold store_feed_items
  rw [hconn]
  show Except.ok (storeFold feed_id env.now items (store, 0)) = Except.ok (store, 0)
  rw [storeFold_all_present feed_id env.now items store 0 h]

theorem ingestBatches_stable (env : RssEnv) (feed_id : Int) (g : String)
    (hconn : env.storeConn = Except.ok ()) :
    ∀ (batches : List (List FeedItem)) (store : ItemStore),
      (∀ b ∈ batches, ∀ it ∈ b, it.guid = g) →
      hasGuid store g = true →
      ingestBatches env feed_id batches store = store := by
  intro batches
  induction batches with
  | nil => intro store _ _; rfl
  | cons b rest ih =>
    intro store hall hpres
    have hb : store_feed_items env feed_id b store = Except.ok (store, 0) := by
      apply store_feed_items_all_present env feed_id b store hconn
      intro it hit
      rw [hall b (List.mem_cons_self b rest) it hit]
      exact hpres
    unfold ingestBatches
    rw [hb]
    exact ih store (fun x hx => hall x (List.mem_cons_of_mem b hx)) hpres

theorem countGuid_pos_hasGuid (store : ItemStore) (g : String)
    (h : countGuid store g = 1) : hasGuid store g = true := by
  by_contra hfalse
  have : hasGuid store g = false := by
    cases hval : hasGuid store g
    · rfl
    · exact absurd hval hfalse
  rw [hasGuid_eq_false_iff] at this
  omega

theorem ingestBatches_dedup (env : RssEnv) (feed_id : Int) (g : String)
    (hconn : env.storeConn = Except.ok ()) :
    ∀ (batches : List (List FeedItem)) (store : ItemStore),
      batches ≠ [] →
      (∀ b ∈ batches, b ≠ [] ∧ ∀ it ∈ b, it.guid = g) →
      countGuid store g = 0 →
      countGuid (ingestBatches env feed_id batches store) g = 1 := by
  intro batches
  cases batches with
  | nil => intro store hne _ _; exact absurd rfl hne
  | cons b rest =>
    intro store _ hall habs0
    obtain ⟨hbne, hbg⟩ := hall b (List.mem_cons_self b rest)
    cases b with
    | nil => exact absurd rfl hbne
    | cons it bitems =>
      have habs : hasGuid store g = false := by
        rw [hasGuid_eq_false_iff]
        exact habs0
      have hstep : (storeFold feed_id env.now (it :: bitems) (store, 0)).1 =
          store ++ [mkItemRow feed_id env.now it] :=
        storeFold_fresh_guid feed_id env.now g it bitems store 0 hbg habs
      have hsf : store_feed_items env feed_id (it :: bitems) store =
          Except.ok (storeFold feed_id env.now (it :: bitems) (store, 0)) := by
        unfold store_feed_items
        rw [hconn]
      have hcount1 : countGuid (store ++ [mkItemRow feed_id env.now it]) g = 1 := by
        rw [countGuid_append]
        have : (mkItemRow feed_id env.now it).guid == g := by
          simp [mkItemRow, hbg it (List.mem_cons_self it bitems)]
        rw [habs0]
        simp [this]
      have hpres : hasGuid (store ++ [mkItemRow feed_id env.now it]) g = true :=
        countGuid_pos_hasGuid _ g hcount1
      unfold ingestBatches
      rw [hsf]
      simp only
      rw [hstep]
      rw [ingestBatches_stable env feed_id g hconn rest _
        (fun x hx => (hall x (List.mem_cons_of_mem _ hx)).2) hpres]
      exact hcount1

/-! ## Concrete fixtures used by the witnesses -/

/-- Normalized entry with dedup key "a". -/
def itemA : FeedItem := ⟨"A", "https://x/a", "", 100, "a"⟩

/-- Normalized entry with dedup key "c". -/
def itemC : FeedItem := ⟨"C", "https://x/c", "", 100, "c"⟩

/-- Stored row with guid "a". -/
def rowA : FeedItemRow := ⟨1, "A", "https://x/a", "", 100, "a", 50⟩

/-- Stored row with guid "b". -/
def rowB : FeedItemRow := ⟨1, "B", "https://x/b", "", 100, "b", 50⟩

/-- Decoded RSS item whose normalization is `itemA`. -/
def rssItemA : RssItem := ⟨some "A", some "https://x/a", some "", none, some "a"⟩

/-- Environment whose feed decodes to the single already-stored entry `itemA`. -/
def envC1 : RssEnv :=
  { http := fun _ => HttpOutcome.ok "feed-xml"
    readChannel := fun _ => Except.ok [rssItemA]
    readAtomFeed := fun _ => Except.error "Atom parse error: not atom"
    rfc2822 := fun _ => none
    now := 100
    storeConn := Except.ok ()
    updateStep := Except.ok ()
    feedsQuery := Except.ok () }

/-- Database with one feed and the row `rowA` already stored. -/
def stC1 : DbState := ⟨[⟨1, "Feed A", "https://x/feed", none, 10⟩], [rowA]⟩

/-! ## C1 -/

/-- C1: ingestion is idempotent on dedup_key. Storing entries whose dedup keys
are all already present adds 0 items and leaves the store unchanged; a
complete `fetch_and_store_feed` run over such entries returns
`itemsAdded = 0` without touching the item store; and after ingesting
batches of entries that all share one dedup key any number of times (at
least once), exactly one `feed_items` row with that guid exists. -/
theorem ingestion_idempotent :
    (∀ (env : RssEnv) (feed_id : Int) (items : List FeedItem) (store : ItemStore),
        env.storeConn = Except.ok () →
        (∀ it ∈ items, hasGuid store it.guid = true) →
        store_feed_items env feed_id items store = Except.ok (store, 0)) ∧
    (∀ (env : RssEnv) (feed_id : Int) (url url2 content : String) (st : DbState)
        (items : List FeedItem),
        normalizeFeedUrl url = Except.ok url2 →
        env.http url2 = HttpOutcome.ok content →
        parse_rss env content = Except.ok items →
        env.storeConn = Except.ok () →
        env.updateStep = Except.ok () →
        (∀ it ∈ items, hasGuid st.items it.guid = true) →
        (fetch_and_store_feed env feed_id url st).1 = Except.ok 0 ∧
        (fetch_and_store_feed env feed_id url st).2.items = st.items) ∧
    (∀ (env : RssEnv) (feed_id : Int) (g : String) (batches : List (List FeedItem))
        (store : ItemStore),
        env.storeConn = Except.ok () →
        batches ≠ [] →
        (∀ b ∈ batches, b ≠ [] ∧ ∀ it ∈ b, it.guid = g) →
        countGuid store g = 0 →
        countGuid (ingestBatches env feed_id batches store) g = 1) := by
  refine ⟨?_, ?_, ?_⟩
  · intro env feed_id items store hconn hall
    exact store_feed_items_all_present env feed_id items store hconn hall
  · intro env feed_id url url2 content st items h1 h2 h3 hconn hupd hall
    have hsf := store_feed_items_all_present env feed_id items st.items hconn hall
    constructor <;>
      simp [fetch_and_store_feed, h1, fetchBody, h2, parseAndStore, h3, afterParse, hsf, hupd]
  · intro env feed_id g batches store hconn hne hall h0
    exact ingestBatches_dedup env feed_id g hconn batches store hne hall h0

/-- Concrete instantiation of `ingestion_idempotent`: re-storing `itemA` over a
store already holding its guid adds nothing, a full sync over the same feed
content returns 0, and three repeated ingestions of dedup key "c" leave
exactly one row with guid "c". -/
theorem ingestion_idempotent_witness :
    store_feed_items envC1 1 [itemA] [rowA] = Except.ok ([rowA], 0) ∧
    (fetch_and_store_feed envC1 1 "https://x/feed" stC1).1 = Except.ok 0 ∧
    countGuid (ingestBatches envC1 1 [[itemC], [itemC], [itemC]] []) "c" = 1 := by
  refine ⟨?_, ?_, ?_⟩
  · exact ingestion_idempotent.1 envC1 1 [itemA] [rowA] rfl (by decide)
  · exact (ingestion_idempotent.2.1 envC1 1 "https://x/feed" "https://x/feed"
      "feed-xml" stC1 [itemA] rfl rfl rfl rfl rfl (by decide)).1
  · exact ingestion_idempotent.2.2 envC1 1 "c" [[itemC], [itemC], [itemC]] []
      rfl (by decide) (by decide) (by decide)

/-! ## C2 -/

theorem feedOutcomes_length (env : RssEnv) :
    ∀ (feeds : List FeedRow) (st : DbState),
      (feedOutcomes env feeds st).length = feeds.length := by
  intro feeds
  induction feeds with
  | nil => intro st; rfl
  | cons f rest ih => intro st; simp [feedOutcomes, ih]

theorem refreshLoop_spec (env : RssEnv) :
    ∀ (feeds : List FeedRow) (total : Nat) (errors : List String) (st : DbState),
      (refreshLoop env feeds total errors st).1 =
        total + sumOks (feedOutcomes env feeds st) ∧
      (refreshLoop env feeds total errors st).2.1 =
        errors ++ feedErrMsgs env feeds st := by
  intro feeds
  induction feeds with
  | nil => intro total errors st; simp [refreshLoop, feedOutcomes, feedErrMsgs, sumOks]
  | cons f rest ih =>
    intro total errors st
    cases hr : (fetch_and_store_feed env f.id f.url st).1 with
    | ok n =>
      have h1 := (ih (total + n) errors (fetch_and_store_feed env f.id f.url st).2).1
      have h2 := (ih (total + n) errors (fetch_and_store_feed env f.id f.url st).2).2
      constructor
      · simp [refreshLoop, feedOutcomes, hr, h1, sumOks]
        omega
      · simp [refreshLoop, feedOutcomes, feedErrMsgs, hr, h2]
    | error e =>
      have h1 := (ih total (errors ++ [f.title ++ ": " ++ e])
        (fetch_and_store_feed env f.id f.url st).2).1
      have h2 := (ih total (errors ++ [f.title ++ ": " ++ e])
        (fetch_and_store_feed env f.id f.url st).2).2
      constructor
      · simp [refreshLoop, feedOutcomes, hr, h1, sumOks]
      · simp [refreshLoop, feedOutcomes, feedErrMsgs, hr, h2]

/-- C2: `refresh_all_feeds` attempts every feed even when some fail: every
feed of the repository produces exactly one sync outcome (so one failure
never prevents the remaining feeds from being attempted), and the returned
summary reports the number of per-feed errors together with the total item
count accumulated from the feeds that succeeded. -/
theorem refresh_attempts_every_feed (env : RssEnv) (st : DbState)
    (h : env.feedsQuery = Except.ok ()) :
    (feedOutcomes env st.feeds st).length = st.feeds.length ∧
    (refresh_all_feeds env st).1 =
      Except.ok (summaryMessage (sumOks (feedOutcomes env st.feeds st))
        (feedErrMsgs env st.feeds st)) := by
  constructor
  · exact feedOutcomes_length env st.feeds st
  · have h1 := (refreshLoop_spec env st.feeds 0 [] st).1
    have h2 := (refreshLoop_spec env st.feeds 0 [] st).2
    have h2e : (refreshLoop env st.feeds 0 [] st).2.1 = feedErrMsgs env st.feeds st := by
      simpa using h2
    by_cases he : (feedErrMsgs env st.feeds st).isEmpty <;>
      simp [refresh_all_feeds, h, h2e, he, summaryMessage, h1]

/-- Decoded RSS item whose normalization is `itemC`. -/
def rssItemC : RssItem := ⟨some "C", some "https://x/c", some "", none, some "c"⟩

/-- A feed whose URL fetches successfully. -/
def feedOk : FeedRow := ⟨1, "Good Feed", "https://one.example/rss", none, 10⟩

/-- A feed whose URL answers with a non-success HTTP status. -/
def feedBad : FeedRow := ⟨2, "Bad Feed", "https://two.example/rss", none, 10⟩

/-- Environment in which `feedOk` fetches one new entry and `feedBad` fails. -/
def envC2 : RssEnv :=
  { http := fun u =>
      if u = "https://one.example/rss" then HttpOutcome.ok "one-xml"
      else HttpOutcome.statusFail "404 Not Found"
    readChannel := fun _ => Except.ok [rssItemC]
    readAtomFeed := fun _ => Except.error "Atom parse error: not atom"
    rfc2822 := fun _ => none
    now := 100
    storeConn := Except.ok ()
    updateStep := Except.ok ()
    feedsQuery := Except.ok () }

/-- Database holding the succeeding and the failing feed. -/
def stC2 : DbState := ⟨[feedOk, feedBad], []⟩

/-- Concrete instantiation of `refresh_attempts_every_feed`: with one failing
and one succeeding feed, both feeds are attempted and the summary reports 1
error together with the succeeding feed's 1 added item. -/
theorem refresh_attempts_every_feed_witness :
    ((feedOutcomes envC2 stC2.feeds stC2).length = stC2.feeds.length ∧
     (refresh_all_feeds envC2 stC2).1 =
       Except.ok (summaryMessage (sumOks (feedOutcomes envC2 stC2.feeds stC2))
         (feedErrMsgs envC2 stC2.feeds stC2))) ∧
    sumOks (feedOutcomes envC2 stC2.feeds stC2) = 1 ∧
    (feedErrMsgs envC2 stC2.feeds stC2).length = 1 :=
  ⟨refresh_attempts_every_feed envC2 stC2 rfl, rfl, rfl⟩

/-! ## C3 -/

/-- Decoded RSS item duplicating the stored guid "a". -/
def rssItemDupA : RssItem := ⟨some "A", some "https://x/a", some "", none, some "a"⟩

/-- Decoded RSS item with fresh guid "c". -/
def rssItemC1 : RssItem := ⟨some "C", some "https://x/c", some "", none, some "c"⟩

/-- Decoded RSS item repeating guid "c" inside the same feed. -/
def rssItemC2 : RssItem := ⟨some "C again", some "https://x/c2", some "", none, some "c"⟩

/-- Environment whose feed decodes to three entries of which exactly one
duplicates an already-stored dedup key ("a"), the other two sharing the
fresh key "c". -/
def envC3 : RssEnv :=
  { http := fun _ => HttpOutcome.ok "three-entries"
    readChannel := fun _ => Except.ok [rssItemDupA, rssItemC1, rssItemC2]
    readAtomFeed := fun _ => Except.error "Atom parse error: not atom"
    rfc2822 := fun _ => none
    now := 100
    storeConn := Except.ok ()
    updateStep := Except.ok ()
    feedsQuery := Except.ok () }

/-- Database with 2 item rows (guids "a" and "b") pre-stored. -/
def stC3 : DbState := ⟨[⟨1, "Feed", "example.com/feed", none, 10⟩], [rowA, rowB]⟩

/-- C3: the value returned by a successful sync equals the number of parsed
entries for which the dedup-insert primitive actually created a new row, and
the store grows by exactly that number; in particular, with 2 rows
pre-stored and the feed returning 3 entries of which exactly 1 duplicates an
existing dedup key (the remaining 2 sharing one fresh key), the sync returns
`itemsAdded = 1` and exactly 3 item rows exist afterwards. -/
theorem sync_returns_inserted_count :
    (∀ (env : RssEnv) (feed_id : Int) (items : List FeedItem)
        (store store2 : ItemStore) (n : Nat),
        env.storeConn = Except.ok () →
        store_feed_items env feed_id items store = Except.ok (store2, n) →
        n = (insertReports feed_id env.now items store).count true ∧
        store2.length = store.length + n) ∧
    ((fetch_and_store_feed envC3 1 "example.com/feed" stC3).1 = Except.ok 1 ∧
      (fetch_and_store_feed envC3 1 "example.com/feed" stC3).2.items.length = 3) := by
  constructor
  · intro env feed_id items store store2 n hconn h
    unfold store_feed_items at h
    rw [hconn] at h
    simp only [Except.ok.injEq] at h
    have hn : n = (insertReports feed_id env.now items store).count true := by
      have hc := storeFold_count feed_id env.now items store 0
      rw [h] at hc
      simpa using hc
    refine ⟨hn, ?_⟩
    have hl := storeFold_length feed_id env.now items store 0
    rw [h] at hl
    simp only at hl
    rw [hl, hn]
  · exact ⟨rfl, rfl⟩

/-- Concrete instantiation of the universal part of
`sync_returns_inserted_count` on the same three-entry scenario: the store
step reports 1 newly inserted row and a resulting store of 3 rows. -/
theorem sync_returns_inserted_count_witness :
    1 = (insertReports 1 100 [itemA, itemC, ⟨"C again", "https://x/c2", "", 100, "c"⟩]
          [rowA, rowB]).count true ∧
    ([rowA, rowB] ++ [mkItemRow 1 100 itemC]).length = ([rowA, rowB] : ItemStore).length + 1 :=
  sync_returns_inserted_count.1 envC3 1
    [itemA, itemC, ⟨"C again", "https://x/c2", "", 100, "c"⟩]
    [rowA, rowB] ([rowA, rowB] ++ [mkItemRow 1 100 itemC]) 1 rfl rfl

/-! ## C6 -/

theorem afterParse_feeds (env : RssEnv) (feed_id : Int) (items : List FeedItem)
    (st : DbState) :
    (afterParse env feed_id items st).2.feeds =
      (if isOkE (afterParse env feed_id items st).1 then
        setLastUpdated st.feeds feed_id env.now else st.feeds) := by
  unfold afterParse
  cases h : store_feed_items env feed_id items st.items with
  | error e => simp [isOkE]
  | ok p =>
    cases h2 : env.updateStep with
    | error e => simp [isOkE]
    | ok u => simp [isOkE]

theorem parseAndStore_feeds (env : RssEnv) (feed_id : Int) (content : String)
    (st : DbState) :
    (parseAndStore env feed_id content st).2.feeds =
      (if isOkE (parseAndStore env feed_id content st).1 then
        setLastUpdated st.feeds feed_id env.now else st.feeds) := by
  unfold parseAndStore
  cases hr : parse_rss env content with
  | ok items => exact afterParse_feeds env feed_id items st
  | error e1 =>
    cases ha : parse_atom env content with
    | ok items => exact afterParse_feeds env feed_id items st
    | error e2 => simp [isOkE]

theorem fetchBody_feeds (env : RssEnv) (feed_id : Int) (url : String)
    (st : DbState) :
    (fetchBody env feed_id url st).2.feeds =
      (if isOkE (fetchBody env feed_id url st).1 then
        setLastUpdated st.feeds feed_id env.now else st.feeds) := by
  unfold fetchBody
  cases hh : env.http url with
  | clientBuildErr e => simp [isOkE]
  | sendErr e => simp [isOkE]
  | statusFail s => simp [isOkE]
  | readErr e => simp [isOkE]
  | ok content => exact parseAndStore_feeds env feed_id content st

theorem fetch_feeds_eq (env : RssEnv) (feed_id : Int) (feed_url : String)
    (st : DbState) :
    (fetch_and_store_feed env feed_id feed_url st).2.feeds =
      (if isOkE (fetch_and_store_feed env feed_id feed_url st).1 then
        setLastUpdated st.feeds feed_id env.now else st.feeds) := by
  unfold fetch_and_store_feed
  cases hn : normalizeFeedUrl feed_url with
  | error e => simp [isOkE]
  | ok url => exact fetchBody_feeds env feed_id url st

/-- C6: for every sync that runs to completion (returns `Ok`), the feed's
last-synced timestamp is updated unconditionally — the hypothesis admits
`itemsAdded = 0` — and on any failing sync (fetch, parse, store or update
failure) the `feeds` table is left untouched. -/
theorem sync_updates_timestamp (env : RssEnv) (feed_id : Int) (url : String)
    (st : DbState) :
    (∀ (n : Nat) (st2 : DbState),
        fetch_and_store_feed env feed_id url st = (Except.ok n, st2) →
        st2.feeds = setLastUpdated st.feeds feed_id env.now) ∧
    (∀ (e : String) (st2 : DbState),
        fetch_and_store_feed env feed_id url st = (Except.error e, st2) →
        st2.feeds = st.feeds) := by
  constructor
  · intro n st2 h
    have hm := fetch_feeds_eq env feed_id url st
    rw [h] at hm
    simpa [isOkE] using hm
  · intro e st2 h
    have hm := fetch_feeds_eq env feed_id url st
    rw [h] at hm
    simpa [isOkE] using hm

/-- Environment in which the HTTP fetch fails at `send()`. -/
def envC6err : RssEnv :=
  { envC1 with http := fun _ => HttpOutcome.sendErr "connection refused" }

/-- Concrete instantiation of `sync_updates_timestamp`: a completed sync that
added 0 items still stamps the feed with the current time, and a sync whose
fetch fails leaves the feeds table unchanged. -/
theorem sync_updates_timestamp_witness :
    (fetch_and_store_feed envC1 1 "https://x/feed" stC1).2.feeds =
      setLastUpdated stC1.feeds 1 100 ∧
    (fetch_and_store_feed envC6err 1 "https://x/feed" stC1).2.feeds = stC1.feeds := by
  constructor
  · exact (sync_updates_timestamp envC1 1 "https://x/feed" stC1).1 0
      ((fetch_and_store_feed envC1 1 "https://x/feed" stC1).2) rfl
  · exact (sync_updates_timestamp envC6err 1 "https://x/feed" stC1).2
      "Failed to fetch feed from https://x/feed: connection refused"
      ((fetch_and_store_feed envC6err 1 "https://x/feed" stC1).2) rfl

/-! ## C7 -/

theorem fetch_via_parseAndStore (env : RssEnv) (feed_id : Int)
    (url url2 content : String) (st : DbState)
    (hn : normalizeFeedUrl url = Except.ok url2)
    (hh : env.http url2 = HttpOutcome.ok content) :
    fetch_and_store_feed env feed_id url st = parseAndStore env feed_id content st := by
  simp [fetch_and_store_feed, hn, fetchBody, hh]

/-- C7: for every fetched response body, the sync parses it first as RSS;
Atom is attempted only when RSS parsing fails (a successful RSS parse makes
the result independent of the Atom decoder); and when neither dialect parses
the sync fails with the parse error, storing no items and leaving the whole
database state unchanged. -/
theorem parse_rss_before_atom (env : RssEnv) (feed_id : Int)
    (url url2 content : String) (st : DbState)
    (hn : normalizeFeedUrl url = Except.ok url2)
    (hh : env.http url2 = HttpOutcome.ok content) :
    (∀ items, parse_rss env content = Except.ok items →
        fetch_and_store_feed env feed_id url st = afterParse env feed_id items st) ∧
    (∀ e items, parse_rss env content = Except.error e →
        parse_atom env content = Except.ok items →
        fetch_and_store_feed env feed_id url st = afterParse env feed_id items st) ∧
    (∀ e1 e2, parse_rss env content = Except.error e1 →
        parse_atom env content = Except.error e2 →
        fetch_and_store_feed env feed_id url st =
          (Except.error "Failed to parse feed as RSS or Atom", st)) ∧
    (∀ items (g : String → Except String (List AtomEntry)),
        parse_rss env content = Except.ok items →
        fetch_and_store_feed { env with readAtomFeed := g } feed_id url st =
          fetch_and_store_feed env feed_id url st) := by
  refine ⟨?_, ?_, ?_, ?_⟩
  · intro items hr
    rw [fetch_via_parseAndStore env feed_id url url2 content st hn hh]
    simp [parseAndStore, hr]
  · intro e items hr ha
    rw [fetch_via_parseAndStore env feed_id url url2 content st hn hh]
    simp [parseAndStore, hr, ha]
  · intro e1 e2 hr ha
    rw [fetch_via_parseAndStore env feed_id url url2 content st hn hh]
    simp [parseAndStore, hr, ha]
  · intro items g hr
    have hr2 : parse_rss { env with readAtomFeed := g } content = Except.ok items := hr
    have hh2 : ({ env with readAtomFeed := g } : RssEnv).http url2 = HttpOutcome.ok content := hh
    rw [fetch_via_parseAndStore { env with readAtomFeed := g } feed_id url url2 content st hn hh2]
    rw [fetch_via_parseAndStore env feed_id url url2 content st hn hh]
    simp only [parseAndStore, hr, hr2]
    rfl

/-- Decoded Atom entry used by the Atom-fallback scenario. -/
def atomEntryD : AtomEntry := ⟨"D", ["https://x/d"], some "s", none, none, 200, "d"⟩

/-- Environment whose body decodes only as Atom. -/
def envC7atom : RssEnv :=
  { envC1 with
    readChannel := fun _ => Except.error "RSS parse error: bad"
    readAtomFeed := fun _ => Except.ok [atomEntryD] }

/-- Environment whose body decodes as neither dialect. -/
def envC7none : RssEnv :=
  { envC1 with
    readChannel := fun _ => Except.error "RSS parse error: bad"
    readAtomFeed := fun _ => Except.error "Atom parse error: bad" }

/-- Concrete instantiation of `parse_rss_before_atom`: an RSS-parseable body
is stored from the RSS result, an RSS-unparseable body falls back to the
Atom result, and a body in neither dialect yields the parse error with the
state untouched. -/
theorem parse_rss_before_atom_witness :
    fetch_and_store_feed envC1 1 "https://x/feed" stC1 = afterParse envC1 1 [itemA] stC1 ∧
    fetch_and_store_feed envC7atom 1 "https://x/feed" stC1 =
      afterParse envC7atom 1 [⟨"D", "https://x/d", "s", 200, "d"⟩] stC1 ∧
    fetch_and_store_feed envC7none 1 "https://x/feed" stC1 =
      (Except.error "Failed to parse feed as RSS or Atom", stC1) := by
  refine ⟨?_, ?_, ?_⟩
  · exact (parse_rss_before_atom envC1 1 "https://x/feed" "https://x/feed"
      "feed-xml" stC1 rfl rfl).1 [itemA] rfl
  · exact (parse_rss_before_atom envC7atom 1 "https://x/feed" "https://x/feed"
      "feed-xml" stC1 rfl rfl).2.1 "RSS parse error: bad"
      [⟨"D", "https://x/d", "s", 200, "d"⟩] rfl rfl
  · exact (parse_rss_before_atom envC7none 1 "https://x/feed" "https://x/feed"
      "feed-xml" stC1 rfl rfl).2.2.1 "RSS parse error: bad" "Atom parse error: bad" rfl rfl

/-! ## C8 -/

/-- C8: normalization fills defaults as specified. For an RSS item,
`published_at` is the current time exactly when the source omits the date or
it fails to parse as RFC 2822, and the dedup key is the item's own guid,
falling back to the (already defaulted) link when no guid is present. For an
Atom entry the dedup key is the entry's mandatory id, and the date is the
entry's `published`, falling back to its mandatory `updated` — an Atom
source therefore never omits a date, so the "now" default arises only for
RSS. -/
theorem normalization_defaults (env : RssEnv) :
    (∀ it : RssItem, it.pub_date.bind env.rfc2822 = none →
        (normalizeRssItem env it).pub_date = env.now) ∧
    (∀ it : RssItem,
        (normalizeRssItem env it).guid = it.guid.getD (it.link.getD "")) ∧
    (∀ e : AtomEntry, (normalizeAtomEntry env e).guid = e.id) ∧
    (∀ e : AtomEntry,
        (normalizeAtomEntry env e).pub_date = e.published.getD e.updated) := by
  refine ⟨?_, ?_, ?_, ?_⟩
  · intro it h
    simp [normalizeRssItem, h]
  · intro it
    rfl
  · intro e
    rfl
  · intro e
    cases h : e.published <;> simp [normalizeAtomEntry, h]

/-- Concrete instantiation of `normalization_defaults`: an RSS item whose
date string does not parse gets `published_at = now = 100`, an RSS item
without a guid gets its link as dedup key, and an Atom entry without
`published` keeps its own id and its `updated` date. -/
theorem normalization_defaults_witness :
    (normalizeRssItem envC1 ⟨some "N", some "https://x/n", none, some "not-a-date", none⟩).pub_date = 100 ∧
    (normalizeRssItem envC1 ⟨some "N", some "https://x/n", none, none, none⟩).guid = "https://x/n" ∧
    (normalizeAtomEntry envC1 atomEntryD).guid = "d" ∧
    (normalizeAtomEntry envC1 atomEntryD).pub_date = 200 := by
  refine ⟨?_, ?_, ?_, ?_⟩
  · exact (normalization_defaults envC1).1
      ⟨some "N", some "https://x/n", none, some "not-a-date", none⟩ rfl
  · exact ((normalization_defaults envC1).2.1
      ⟨some "N", some "https://x/n", none, none, none⟩).trans rfl
  · exact ((normalization_defaults envC1).2.2.1 atomEntryD).trans rfl
  · exact ((normalization_defaults envC1).2.2.2 atomEntryD).trans rfl

/-! ## C9 -/

/-- C9: every feed URL whose trimmed form is nonempty and does not start with
a scheme prefix is normalized by prepending "https://" before the fetch; in
particular "example.com/rss" is fetched as "https://example.com/rss"; and
the fetch proceeds on exactly the normalized URL. -/
theorem url_scheme_default :
    (∀ url : String, rustTrim url ≠ "" →
        rustStartsWith (rustTrim url) "http://" = false →
        rustStartsWith (rustTrim url) "https://" = false →
        normalizeFeedUrl url = Except.ok ("https://" ++ rustTrim url)) ∧
    normalizeFeedUrl "example.com/rss" = Except.ok "https://example.com/rss" ∧
    (∀ (env : RssEnv) (feed_id : Int) (url url2 : String) (st : DbState),
        normalizeFeedUrl url = Except.ok url2 →
        fetch_and_store_feed env feed_id url st = fetchBody env feed_id url2 st) := by
  refine ⟨?_, ?_, ?_⟩
  · intro url h1 h2 h3
    simp [normalizeFeedUrl, h1, h2, h3]
  · rfl
  · intro env feed_id url url2 st h
    simp [fetch_and_store_feed, h]

/-- Concrete instantiation of `url_scheme_default` at the scheme-less URL of
the spec and at a sync that proceeds on its normalized URL. -/
theorem url_scheme_default_witness :
    normalizeFeedUrl "example.com/rss" = Except.ok ("https://" ++ rustTrim "example.com/rss") ∧
    fetch_and_store_feed envC1 1 "https://x/feed" stC1 = fetchBody envC1 1 "https://x/feed" stC1 := by
  constructor
  · exact url_scheme_default.1 "example.com/rss" (by decide) (by decide) (by decide)
  · exact url_scheme_default.2.2 envC1 1 "https://x/feed" "https://x/feed" stC1 rfl

/-! ## C10 -/

/-- C10: the sync is not atomic on error. When the final feed-timestamp
update fails after the items were stored, `fetch_and_store_feed` returns the
update error while the newly inserted `feed_items` rows remain in the store,
so an error result does not imply the store is unchanged. -/
theorem sync_not_atomic_on_update_failure (env : RssEnv) (feed_id : Int)
    (url url2 content : String) (items : List FeedItem) (st : DbState) (e : String)
    (hn : normalizeFeedUrl url = Except.ok url2)
    (hh : env.http url2 = HttpOutcome.ok content)
    (hr : parse_rss env content = Except.ok items)
    (hc : env.storeConn = Except.ok ())
    (hu : env.updateStep = Except.error e) :
    fetch_and_store_feed env feed_id url st =
      (Except.error e,
        { st with items := (storeFold feed_id env.now items (st.items, 0)).1 }) := by
  rw [fetch_via_parseAndStore env feed_id url url2 content st hn hh]
  simp [parseAndStore, hr, afterParse, store_feed_items, hc, hu]

/-- Environment whose feed decodes to one fresh entry but whose final
feed-timestamp update fails. -/
def envC10 : RssEnv :=
  { envC1 with
    readChannel := fun _ => Except.ok [rssItemC]
    updateStep := Except.error "Failed to update feed timestamp: disk full" }

/-- Concrete instantiation of `sync_not_atomic_on_update_failure`: the sync
returns the update error while the store has grown by the freshly inserted
row. -/
theorem sync_not_atomic_witness :
    fetch_and_store_feed envC10 1 "https://x/feed" stC1 =
      (Except.error "Failed to update feed timestamp: disk full",
        { stC1 with items := (storeFold 1 100 [itemC] (stC1.items, 0)).1 }) ∧
    (storeFold 1 100 [itemC] (stC1.items, 0)).1.length = stC1.items.length + 1 := by
  constructor
  · exact sync_not_atomic_on_update_failure envC10 1 "https://x/feed" "https://x/feed"
      "feed-xml" [itemC] stC1 "Failed to update feed timestamp: disk full" rfl rfl rfl rfl rfl
  · rfl

/-! ## C4 and C5 -/

/-- Environment whose feed-list query fails, making `refresh_all_feeds`
itself return an error. -/
def envSchedFail : RssEnv :=
  { envC1 with feedsQuery := Except.error "Failed to get connection from pool" }

/-- A screen factory whose Feeds screen is currently loaded (not stale). -/
def factoryLoaded : ScreenFactoryState := ⟨⟨true⟩⟩

/-- C4 counterexample: a background sync cycle whose `refresh_all_feeds`
fails (here: the feed-list query errors) completes and returns to sleeping
WITHOUT clearing the Feeds screen — the cycle result keeps
`loaded = true` — so the claim that the scheduler marks the feed view stale
after every completed cycle regardless of outcome is false on the code. -/
theorem scheduler_stale_counterexample :
    cycleFactory (rssReloaderCycle envSchedFail true stC1 factoryLoaded []) =
      some factoryLoaded ∧
    factoryLoaded.feedsScreen.loaded = true :=
  ⟨rfl, rfl⟩

/-- C4 (amended): after a sync cycle whose `refresh_all_feeds` returns `Ok`
— which includes every cycle with only per-feed failures — the scheduler
clears the Feeds screen (marking the feed view stale so it reloads on next
render) before returning to sleeping; after a cycle whose refresh itself
returns `Err`, the scheduler only logs the error and leaves the screen
factory untouched. -/
theorem scheduler_clear_on_ok (env : RssEnv) (db : DbState)
    (f : ScreenFactoryState) (log : List LogEntry) :
    (∀ msg db2, refresh_all_feeds env db = (Except.ok msg, db2) →
        rssReloaderCycle env true db f log =
          CycleResult.next db2 (clear_screen f ActiveScreen.feeds)
            (add_log_entry
              (add_log_entry log "INFO" ("RSS Feeds refreshed, " ++ msg ++ " new items added."))
              "INFO" "Feeds screen cleared, will reload on next render")) ∧
    (clear_screen f ActiveScreen.feeds).feedsScreen.loaded = false ∧
    (∀ e db2, refresh_all_feeds env db = (Except.error e, db2) →
        rssReloaderCycle env true db f log =
          CycleResult.next db2 f
            (add_log_entry log "ERROR" ("Error refreshing RSS feeds: " ++ e))) := by
  refine ⟨?_, rfl, ?_⟩
  · intro msg db2 h
    simp [rssReloaderCycle, h]
  · intro e db2 h
    simp [rssReloaderCycle, h]

/-- Concrete instantiation of `scheduler_clear_on_ok`: a successful refresh
(0 new items) clears the Feeds screen, while a refresh failing at the feed
query leaves `factoryLoaded` untouched. -/
theorem scheduler_clear_on_ok_witness :
    rssReloaderCycle envC1 true stC1 factoryLoaded [] =
      CycleResult.next (refresh_all_feeds envC1 stC1).2
        (clear_screen factoryLoaded ActiveScreen.feeds)
        (add_log_entry
          (add_log_entry [] "INFO"
            ("RSS Feeds refreshed, " ++ "Successfully refreshed feeds. Added 0 new items." ++
              " new items added."))
          "INFO" "Feeds screen cleared, will reload on next render") ∧
    rssReloaderCycle envSchedFail true stC1 factoryLoaded [] =
      CycleResult.next stC1 factoryLoaded
        (add_log_entry [] "ERROR"
          ("Error refreshing RSS feeds: " ++ "Failed to get connection from pool")) := by
  constructor
  · exact (scheduler_clear_on_ok envC1 stC1 factoryLoaded []).1
      "Successfully refreshed feeds. Added 0 new items." (refresh_all_feeds envC1 stC1).2 rfl
  · exact (scheduler_clear_on_ok envSchedFail stC1 factoryLoaded []).2.2
      "Failed to get connection from pool" stC1 rfl

/-- C5 counterexample: not every failure inside the scheduler loop body is
converted into a log entry — `tokio::runtime::Runtime::new().unwrap()`
panics the scheduler thread when runtime creation fails, reaching a terminal
state of the loop without process exit, so the claim that no failure is ever
fatal to the loop is false on the code. -/
theorem scheduler_fatal_counterexample :
    loopStep envC1 false (LoopState.sleeping ⟨stC1, factoryLoaded, []⟩) = LoopState.dead :=
  rfl

/-- C5 (amended): every failure of the feed refresh during a sync cycle is
converted into a log entry and is never fatal to the loop — when the per-
cycle runtime creation succeeds, the loop always returns to `sleeping` (so
the next cycle runs after the fixed 300-second wake interval), and a failing
refresh only appends an ERROR log entry; the only loop exit besides process
exit is the runtime-creation panic of the counterexample. -/
theorem scheduler_resilient_amended (env : RssEnv) (s : SchedState) :
    (∃ s2, loopStep env true (LoopState.sleeping s) = LoopState.sleeping s2) ∧
    (∀ e db2, refresh_all_feeds env s.db = (Except.error e, db2) →
        loopStep env true (LoopState.sleeping s) =
          LoopState.sleeping ⟨db2, s.factory,
            add_log_entry s.log "ERROR" ("Error refreshing RSS feeds: " ++ e)⟩) ∧
    rssReloaderIntervalSecs = 300 := by
  refine ⟨?_, ?_, rfl⟩
  · cases hres : refresh_all_feeds env s.db with
    | mk r db2 =>
      cases r with
      | ok msg =>
        refine ⟨⟨db2, clear_screen s.factory ActiveScreen.feeds,
          add_log_entry
            (add_log_entry s.log "INFO" ("RSS Feeds refreshed, " ++ msg ++ " new items added."))
            "INFO" "Feeds screen cleared, will reload on next render"⟩, ?_⟩
        simp [loopStep, rssReloaderCycle, hres]
      | error e =>
        refine ⟨⟨db2, s.factory,
          add_log_entry s.log "ERROR" ("Error refreshing RSS feeds: " ++ e)⟩, ?_⟩
        simp [loopStep, rssReloaderCycle, hres]
  · intro e db2 h
    simp [loopStep, rssReloaderCycle, h]

/-- Concrete instantiation of `scheduler_resilient_amended`: a cycle whose
refresh fails at the feed query logs the error and returns to sleeping. -/
theorem scheduler_resilient_amended_witness :
    loopStep envSchedFail true (LoopState.sleeping ⟨stC1, factoryLoaded, []⟩) =
      LoopState.sleeping ⟨stC1, factoryLoaded,
        add_log_entry [] "ERROR"
          ("Error refreshing RSS feeds: " ++ "Failed to get connection from pool")⟩ :=
  (scheduler_resilient_amended envSchedFail ⟨stC1, factoryLoaded, []⟩).2.1
    "Failed to get connection from pool" stC1 rfl

end DryDock
